import Mathlib

/-!
Shallow embedding of the near-wallet client service layer.

The embedding covers the two logic-bearing source files:
  packages/frontend/src/services/FungibleTokens.js
  packages/frontend/src/utils/twoFactor.js

External collaborators (the near-api-js SDK, the wallet object, the Redux
store, HTTP fetches) are modelled as explicit environment records carrying
the outcome of each external call: a view-call result is an
`Except String v` (error message or JSON value), and every transaction
submission through `account.signAndSendTransaction` / `account.sendMoney`
is recorded in an ordered trace of `Transaction` values.

Configuration constants imported from `../config` are not part of the
provided sources; where a claim depends only on their identity they are
fixed opaque numerals, and where a claim depends on their relative sizes
they are taken as parameters (see `FeeConfig`).
-/

namespace NearWallet

/-- A JSON value as returned by a read-only contract view call.  Only the
shapes the embedded code discriminates on are distinguished: `null`,
booleans, and everything else. -/
inductive JsValue
| vNull
| vBool (b : Bool)
| vOther
deriving DecidableEq, Repr

/-- Result object of `storage_balance_of`: a record whose `total` field may
be absent (`none`).  The whole result may itself be JSON `null`, which the
code reaches through optional chaining; that outer level is `Option
StorageBalance` at use sites. -/
structure StorageBalance where
  total : Option Nat
deriving DecidableEq, Repr

/-- Structured arguments of a `functionCall` action, mirroring the JSON
argument objects built in FungibleTokens.js. -/
inductive FcArgs
| registerAccountArgs (account_id : String)
| ftTransferArgs (amount : Nat) (memo : Option String) (receiver_id : String)
| storageDepositArgs (account_id : String) (registration_only : Bool)
| nearWithdrawArgs (amount : Nat)
| emptyArgs
deriving DecidableEq, Repr

/-- One action of a transaction: method name, arguments, gas budget and
optional attached deposit, as built by near-api-js `functionCall`. -/
structure Action where
  methodName : String
  args : FcArgs
  gas : Nat
  deposit : Option Nat
deriving DecidableEq, Repr

/-- The near-api-js `functionCall` action constructor. -/
def functionCall (methodName : String) (args : FcArgs) (gas : Nat)
    (deposit : Option Nat) : Action :=
  ⟨methodName, args, gas, deposit⟩

/-- A transaction handed to the external account for signing and
submission: either a native-currency `sendMoney` or a function-call batch
addressed to a contract. -/
inductive Transaction
| sendMoney (receiverId : String) (amount : Nat)
| functionCallTx (receiverId : String) (actions : List Action)
deriving DecidableEq, Repr

/-- JavaScript `String.prototype.includes` on character lists:
does `p` occur as a contiguous substring of `s`? -/
def startsWithL : List Char → List Char → Bool
| _, [] => true
| [], _ :: _ => false
| a :: as, p :: ps => (a == p) && startsWithL as ps

/-- Helper for `jsIncludes`: scan every suffix of `s` for the pattern. -/
def containsL : List Char → List Char → Bool
| [], p => p.isEmpty
| s@(_ :: rest), p => startsWithL s p || containsL rest p

/-- JavaScript `s.includes(pat)`. -/
def jsIncludes (s pat : String) : Bool :=
  containsL s.toList pat.toList

/-! Configuration constants.

Modelled from the spec: the `../config` module is outside the provided
sources; the spec (section 6) describes these as fixed protocol parameters
with no particular values.  The numerals below are opaque concrete stand-ins;
no confirmed theorem depends on their values, only on their identity.  The
two storage-balance constants are ordered (`LARGE` larger) per the spec's
"retry once with a larger constant". -/

def FT_MINIMUM_STORAGE_BALANCE : Nat := 1250000000000000000000

def FT_MINIMUM_STORAGE_BALANCE_LARGE : Nat := 12500000000000000000000

def FT_STORAGE_DEPOSIT_GAS : Nat := 30000000000000

def FT_TRANSFER_GAS : Nat := 15000000000000

def FT_REGISTRATION_DEPOSIT_GAS : Nat := 10000000000000

def TOKEN_TRANSFER_DEPOSIT : Nat := 1

def NEAR_TOKEN_ID : String := "wrap.near"

/-- Modelled from the spec: `parseNearAmount('0.00125')` — the fixed small
constant funding the wrapNear storage deposit.  The literal `0.00125` is in
the source; the SDK parser scales it by the native 24-decimal convention. -/
def WRAP_NEAR_STORAGE_DEPOSIT_AMOUNT : Nat := 1250000000000000000000

/-! FungibleTokens: read-only query layer (source lines 37-47, 75-81,
127-141). -/

/-- `FungibleTokens.checkRegistration` (source lines 37-47): forwards the
`check_registration` view-call result, returning JSON `null` on any call
failure. -/
def checkRegistration (raw : Except String JsValue) : JsValue :=
  match raw with
  | Except.ok v => v
  | Except.error _ => JsValue.vNull

/-- `FungibleTokens.isAccountUnregistered` (source lines 127-129): strict
equality of the `checkRegistration` result with `false`. -/
def isAccountUnregistered (raw : Except String JsValue) : Bool :=
  checkRegistration raw == JsValue.vBool false

/-- `FungibleTokens.isStorageDepositRequired` (source lines 131-141): the
`storage_balance_of` query (whose raw outcome is the argument; `Except.ok
none` is a JSON `null` result) is probed with optional chaining for a
`total` field; any thrown error yields `false`. -/
def isStorageDepositRequired (query : Except String (Option StorageBalance)) : Bool :=
  match query with
  | Except.error _ => false
  | Except.ok none => true
  | Except.ok (some b) => b.total.isNone

/-! FungibleTokens: transfer path (source lines 143-229). -/

/-- Outcomes of the external calls `transfer` makes, in program order.
`firstDepositOutcome` / `retryDepositOutcome` are the results of the two
possible `transferStorageDeposit` submissions; `transferOutcome` is the
result of the final `signAndSendTransaction`; `sendMoneyOutcome` the result
of the contract-less `sendMoney` branch. -/
structure TransferEnv where
  storageBalanceOfReceiver : Except String (Option StorageBalance)
  checkRegistrationOfReceiver : Except String JsValue
  firstDepositOutcome : Except String Unit
  retryDepositOutcome : Except String Unit
  transferOutcome : Except String Unit
  sendMoneyOutcome : Except String Unit
deriving Repr

/-- `FungibleTokens.transferStorageDeposit` (source lines 209-229): a
single-action transaction to `contractName` calling `storage_deposit` with
`registration_only: true`, the fixed gas budget and the given deposit. -/
def transferStorageDeposit (contractName receiverId : String)
    (storageDepositAmount : Nat) : Transaction :=
  Transaction.functionCallTx contractName
    [functionCall "storage_deposit"
      (FcArgs.storageDepositArgs receiverId true)
      FT_STORAGE_DEPOSIT_GAS (some storageDepositAmount)]

/-- The `register_account` action (source lines 189-193). -/
def registerAccountAction (receiverId : String) : Action :=
  functionCall "register_account" (FcArgs.registerAccountArgs receiverId)
    FT_REGISTRATION_DEPOSIT_GAS none

/-- The `ft_transfer` action (source lines 195-204). -/
def ftTransferAction (amount : Nat) (memo : Option String)
    (receiverId : String) : Action :=
  functionCall "ft_transfer" (FcArgs.ftTransferArgs amount memo receiverId)
    FT_TRANSFER_GAS (some TOKEN_TRANSFER_DEPOSIT)

/-- The final transfer transaction submitted to `contractName` (source
lines 185-206): an optional `register_account` action followed by the
`ft_transfer` action. -/
def ftTransferTx (contractName : String) (registrationRequired : Bool)
    (amount : Nat) (memo : Option String) (receiverId : String) : Transaction :=
  Transaction.functionCallTx contractName
    ((if registrationRequired then [registerAccountAction receiverId] else [])
      ++ [ftTransferAction amount memo receiverId])

/-- The error-message substring gating the storage-deposit retry (source
line 168). -/
def ATTACHED_DEPOSIT_PATTERN : String := "attached deposit is less than"

/-- `FungibleTokens.transfer` (source lines 143-207).  Returns the value
the promise settles with (`Except.error` = the returned promise rejects)
paired with the ordered trace of transactions submitted to the external
account, including submissions whose own promise rejected. -/
def transfer (env : TransferEnv) (contractName : Option String)
    (amount : Nat) (receiverId : String) (memo : Option String) :
    Except String Unit × List Transaction :=
  match contractName with
  | none => (env.sendMoneyOutcome, [Transaction.sendMoney receiverId amount])
  | some contract =>
    let txMin := transferStorageDeposit contract receiverId FT_MINIMUM_STORAGE_BALANCE
    let txLarge := transferStorageDeposit contract receiverId FT_MINIMUM_STORAGE_BALANCE_LARGE
    let finish : List Transaction → Except String Unit × List Transaction :=
      fun deposits =>
        (env.transferOutcome,
          deposits ++
            [ftTransferTx contract
              (isAccountUnregistered env.checkRegistrationOfReceiver)
              amount memo receiverId])
    if isStorageDepositRequired env.storageBalanceOfReceiver then
      match env.firstDepositOutcome with
      | Except.ok _ => finish [txMin]
      | Except.error e =>
        if jsIncludes e ATTACHED_DEPOSIT_PATTERN then
          match env.retryDepositOutcome with
          | Except.ok _ => finish [txMin, txLarge]
          | Except.error e2 => (Except.error e2, [txMin, txLarge])
        else
          finish [txMin]
    else
      finish []

/-! FungibleTokens: fee estimator (source lines 98-119).

The gas-price oracle `getTotalGasFee` and the deposit/gas constants live
outside the provided sources.  Modelled from the spec: the oracle is an
opaque conversion from a gas-unit budget to native-currency cost, taken
here as a function parameter, and the constants are fields of `FeeConfig`. -/

/-- Modelled from the spec: the configuration constants consumed by
`getEstimatedTotalFees`, taken as parameters because `../config` is outside
the provided sources. -/
structure FeeConfig where
  ftTransferGas : Nat
  ftRegistrationDepositGas : Nat
  ftStorageDepositGas : Nat
  ftRegistrationDeposit : Nat
  ftMinimumStorageBalance : Nat
  sendNearGas : Nat
deriving Repr

/-- `FungibleTokens.getEstimatedTotalFees` (source lines 98-119): with both
`accountId` and `contractName` present, branch on registration-required then
storage-deposit-required, adding the matching deposit constant on top of the
gas fee; otherwise a bare gas fee for a token transfer or a native send. -/
def getEstimatedTotalFees (cfg : FeeConfig) (getTotalGasFee : Nat → Nat)
    (regQuery : Except String JsValue)
    (storQuery : Except String (Option StorageBalance))
    (accountId contractName : Option String) : Nat :=
  if contractName.isSome && accountId.isSome then
    if isAccountUnregistered regQuery then
      getTotalGasFee (cfg.ftTransferGas + cfg.ftRegistrationDepositGas)
        + cfg.ftRegistrationDeposit
    else if isStorageDepositRequired storQuery then
      getTotalGasFee (cfg.ftTransferGas + cfg.ftStorageDepositGas)
        + cfg.ftMinimumStorageBalance
    else
      getTotalGasFee (if contractName.isSome then cfg.ftTransferGas else cfg.sendNearGas)
  else
    getTotalGasFee (if contractName.isSome then cfg.ftTransferGas else cfg.sendNearGas)

/-! FungibleTokens: wrapNear (source lines 231-263). -/

/-- `FungibleTokens.wrapNear` (source lines 231-263).  `storageQuery` is
the outcome of the `storage_balance_of` view call against the wrapped-token
contract (`Except.ok none` = JSON `null`, the falsy case); an uncaught query
error propagates.  On success, the single submitted transaction is
returned. -/
def wrapNear (storageQuery : Except String (Option StorageBalance))
    (wrapAmount : Nat) (toWNear : Bool) : Except String Transaction :=
  let baseAction :=
    functionCall (if toWNear then "near_deposit" else "near_withdraw")
      (if toWNear then FcArgs.emptyArgs else FcArgs.nearWithdrawArgs wrapAmount)
      FT_STORAGE_DEPOSIT_GAS
      (some (if toWNear then wrapAmount else TOKEN_TRANSFER_DEPOSIT))
  match storageQuery with
  | Except.error e => Except.error e
  | Except.ok storage =>
    let actions :=
      if storage.isNone then
        [functionCall "storage_deposit" FcArgs.emptyArgs
          FT_STORAGE_DEPOSIT_GAS (some WRAP_NEAR_STORAGE_DEPOSIT_AMOUNT),
         baseAction]
      else
        [baseAction]
    Except.ok (Transaction.functionCallTx NEAR_TOKEN_ID actions)

/-! TwoFactor (packages/frontend/src/utils/twoFactor.js). -/

/-- On-chain account state as consumed by `has2faEnabled`: just the
deployed contract's code hash. -/
structure AccountState where
  code_hash : String
deriving DecidableEq, Repr

/-- Modelled from the spec: the fixed allow-list of known multisig contract
code hashes from `../config` (values opaque; nothing proved depends on
them). -/
def MULTISIG_CONTRACT_HASHES : List String :=
  ["multisig-hash-a", "multisig-hash-b"]

/-- `TwoFactor.has2faEnabled` (source lines 24-30), applied to the resolved
account state: false when state is absent, else membership of the code hash
in the allow-list. -/
def has2faEnabled (state : Option AccountState) : Bool :=
  match state with
  | none => false
  | some st => MULTISIG_CONTRACT_HASHES.contains st.code_hash

/-- A JavaScript Promise object wrapping the value it will eventually
resolve to. -/
structure JsPromise (α : Type) where
  eventual : α
deriving DecidableEq, Repr

/-- JavaScript truthiness of a Promise object: every object is truthy,
regardless of the value it eventually resolves to. -/
def JsPromise.truthy {α : Type} (_p : JsPromise α) : Bool := true

/-- The unawaited `TwoFactor.has2faEnabled(this)` call as it appears in the
`get2faMethod` condition (source line 39): a Promise object, not a boolean. -/
def has2faEnabledPromise (state : Option AccountState) : JsPromise Bool :=
  ⟨has2faEnabled state⟩

/-- `TwoFactor.get2faMethod` (source lines 38-43): the condition tests the
truthiness of the unawaited Promise.  Returns the method result paired with
whether the inherited `super.get2faMethod()` was invoked. -/
def get2faMethod (state : Option AccountState) (superMethod : Option String) :
    Option String × Bool :=
  if (has2faEnabledPromise state).truthy then
    (superMethod, true)
  else
    (none, false)

/-- Failure modes of `initTwoFactor`: the named `WalletError` raised for an
enabled Ledger signer (message and messageCode fields), or an error
propagated from the helper-service POST. -/
inductive InitTwoFactorError
| walletError (message : String) (messageCode : String)
| postError (e : String)
deriving DecidableEq, Repr

/-- Observable outcome of `initTwoFactor`: settled value, the pending
requestId slot after the call, and whether the helper-service POST was
attempted. -/
structure InitTwoFactorResult where
  result : Except InitTwoFactorError String
  storedRequestId : Int
  postAttempted : Bool
deriving Repr

/-- `TwoFactor.initTwoFactor` (source lines 45-58): if the wallet reports
the Ledger enabled, throw the named WalletError before touching the stored
request or the helper service; otherwise set the pending requestId to -1
and POST `/2fa/init`, whose outcome (`postOutcome`) settles the call. -/
def initTwoFactor (ledgerEnabled : Bool) (postOutcome : Except String String)
    (storedRequestId : Int) : InitTwoFactorResult :=
  if ledgerEnabled then
    { result := Except.error (InitTwoFactorError.walletError
        "Ledger Hardware Wallet is enabled" "initTwoFactor.ledgerEnabled"),
      storedRequestId := storedRequestId,
      postAttempted := false }
  else
    { result :=
        match postOutcome with
        | Except.ok r => Except.ok r
        | Except.error e => Except.error (InitTwoFactorError.postError e),
      storedRequestId := -1,
      postAttempted := true }

/-- How a `disableMultisig` call settles: it throws with a message, or it
returns a value (`none` models JavaScript `undefined`, which is what the
function returns when the underlying `disable` call threw and was
swallowed). -/
inductive DisableOutcome
| threw (msg : String)
| returned (r : Option Unit)
deriving DecidableEq, Repr

/-- Observable outcome of `disableMultisig`: how the call settled, the
controller's `has2fa` flag afterwards, and whether `refreshAccount` was
dispatched. -/
structure DisableMultisigResult where
  outcome : DisableOutcome
  has2fa : Bool
  refreshed : Bool
deriving DecidableEq, Repr

/-- The error-message substring discriminated by `disableMultisig` (source
line 82). -/
def TOO_LARGE_PATTERN : String := "too large to be viewed"

/-- The fixed cooldown message thrown by `disableMultisig` (source line
83). -/
def DISABLE_COOLDOWN_MESSAGE : String :=
  "You must wait 15 minutes between each attempt to disable 2fa. Please try again in 15 minutes. "

/-- `TwoFactor.disableMultisig` (source lines 75-89): the underlying
`this.disable(...)` outcome is `disableCall`.  On success: refresh, clear
`has2fa`, return the result.  On failure whose message contains the
"too large to be viewed" substring: throw the fixed cooldown message (no
refresh, `has2fa` untouched).  On any other failure the catch block falls
through: refresh, clear `has2fa`, and return `undefined`. -/
def disableMultisig (disableCall : Except String Unit) (has2fa : Bool) :
    DisableMultisigResult :=
  match disableCall with
  | Except.ok r =>
    { outcome := DisableOutcome.returned (some r), has2fa := false, refreshed := true }
  | Except.error e =>
    if jsIncludes e TOO_LARGE_PATTERN then
      { outcome := DisableOutcome.threw DISABLE_COOLDOWN_MESSAGE,
        has2fa := has2fa, refreshed := false }
    else
      { outcome := DisableOutcome.returned none, has2fa := false, refreshed := true }

/-- Does a transaction carry an `ft_transfer` action? -/
def txHasFtTransfer : Transaction → Bool
| Transaction.sendMoney _ _ => false
| Transaction.functionCallTx _ actions =>
    actions.any (fun a => a.methodName == "ft_transfer")

/-- Does a transaction carry a `storage_deposit` action? -/
def txHasStorageDeposit : Transaction → Bool
| Transaction.sendMoney _ _ => false
| Transaction.functionCallTx _ actions =>
    actions.any (fun a => a.methodName == "storage_deposit")

/-! Theorems settling the claims. -/

/-- Claim C4: `isStorageDepositRequired` returns false whenever the
underlying `storage_balance_of` query fails (fail-open), and returns true
exactly when the query succeeds and the returned status lacks a `total`
field (a `null` result, or a record whose `total` is absent). -/
theorem isStorageDepositRequired_fail_open_total_probe :
    (∀ e : String, isStorageDepositRequired (Except.error e) = false) ∧
    isStorageDepositRequired (Except.ok none) = true ∧
    (∀ t : Option Nat,
      isStorageDepositRequired (Except.ok (some { total := t })) = t.isNone) :=
  ⟨fun _ => rfl, rfl, fun _ => rfl⟩

/-- Claim C5: `checkRegistration` returns `null` (not `false`) on any call
failure, and `isAccountUnregistered` returns true only when
`checkRegistration` produced exactly `false`; a failed call, `true`,
`null`, or any other value yields false. -/
theorem isAccountUnregistered_only_exact_false :
    (∀ e : String, checkRegistration (Except.error e) = JsValue.vNull) ∧
    (∀ e : String, isAccountUnregistered (Except.error e) = false) ∧
    isAccountUnregistered (Except.ok JsValue.vNull) = false ∧
    isAccountUnregistered (Except.ok (JsValue.vBool true)) = false ∧
    isAccountUnregistered (Except.ok JsValue.vOther) = false ∧
    isAccountUnregistered (Except.ok (JsValue.vBool false)) = true :=
  ⟨fun _ => rfl, fun _ => rfl, rfl, rfl, rfl, rfl⟩

/-- Claim C7: `initTwoFactor` with the Ledger signer active fails with the
named WalletError and performs no side effects — the stored requestId is
untouched and the helper-service POST is never attempted; without the
Ledger it first sets the pending requestId to -1 and then performs the
POST. -/
theorem initTwoFactor_ledger_fail_fast :
    ∀ (postOutcome : Except String String) (storedRequestId : Int),
      initTwoFactor true postOutcome storedRequestId =
        { result := Except.error (InitTwoFactorError.walletError
            "Ledger Hardware Wallet is enabled" "initTwoFactor.ledgerEnabled"),
          storedRequestId := storedRequestId,
          postAttempted := false } ∧
      (initTwoFactor false postOutcome storedRequestId).storedRequestId = -1 ∧
      (initTwoFactor false postOutcome storedRequestId).postAttempted = true :=
  fun _ _ => ⟨rfl, rfl, rfl⟩

/-- Claim C9: `get2faMethod` tests the truthiness of the unawaited Promise
returned by `has2faEnabled`, which is always truthy, so for every account
state it invokes the inherited `get2faMethod` and the `null` branch is
unreachable. -/
theorem get2faMethod_always_calls_super :
    ∀ (state : Option AccountState) (superMethod : Option String),
      get2faMethod state superMethod = (superMethod, true) :=
  fun _ _ => rfl

/-- Claim C8: `wrapNear` depositing (`toWNear = true`) with no existing
storage balance submits exactly one `storage_deposit` action funded with
the fixed constant, placed ahead of the `near_deposit` action; with an
existing storage balance no `storage_deposit` action is included. -/
theorem wrapNear_deposit_storage_placement :
    ∀ (wrapAmount : Nat),
      wrapNear (Except.ok none) wrapAmount true =
        Except.ok (Transaction.functionCallTx NEAR_TOKEN_ID
          [functionCall "storage_deposit" FcArgs.emptyArgs FT_STORAGE_DEPOSIT_GAS
             (some WRAP_NEAR_STORAGE_DEPOSIT_AMOUNT),
           functionCall "near_deposit" FcArgs.emptyArgs FT_STORAGE_DEPOSIT_GAS
             (some wrapAmount)]) ∧
      ∀ (b : StorageBalance),
        wrapNear (Except.ok (some b)) wrapAmount true =
          Except.ok (Transaction.functionCallTx NEAR_TOKEN_ID
            [functionCall "near_deposit" FcArgs.emptyArgs FT_STORAGE_DEPOSIT_GAS
               (some wrapAmount)]) :=
  fun _ => ⟨rfl, fun _ => rfl⟩

/-- Claim C10: the `wrapNear` storage-deposit prepend depends only on the
storage-balance query result, not on the deposit/withdraw flag: with
`toWNear = false` and no storage balance the `storage_deposit` action is
prepended ahead of `near_withdraw`, and in general the submitted
transaction carries a `storage_deposit` action exactly when the query
returned `null`. -/
theorem wrapNear_prepend_ignores_direction :
    ∀ (wrapAmount : Nat),
      wrapNear (Except.ok none) wrapAmount false =
        Except.ok (Transaction.functionCallTx NEAR_TOKEN_ID
          [functionCall "storage_deposit" FcArgs.emptyArgs FT_STORAGE_DEPOSIT_GAS
             (some WRAP_NEAR_STORAGE_DEPOSIT_AMOUNT),
           functionCall "near_withdraw" (FcArgs.nearWithdrawArgs wrapAmount)
             FT_STORAGE_DEPOSIT_GAS (some TOKEN_TRANSFER_DEPOSIT)]) ∧
      ∀ (storage : Option StorageBalance) (toWNear : Bool),
        (wrapNear (Except.ok storage) wrapAmount toWNear).map txHasStorageDeposit
          = Except.ok storage.isNone := by
  intro wrapAmount
  refine ⟨rfl, ?_⟩
  intro storage toWNear
  cases storage <;> cases toWNear <;> rfl

/-- Claim C2 counterexample: a `disableMultisig` failure whose message does
not contain "too large to be viewed" is not propagated to the caller — the
call settles normally with `undefined` — and `has2fa` is set to false even
though the underlying disable call failed. -/
theorem disableMultisig_swallows_other_errors_cex :
    (disableMultisig (Except.error "Transport closed") true).outcome
        ≠ DisableOutcome.threw "Transport closed" ∧
    (disableMultisig (Except.error "Transport closed") true).outcome
        = DisableOutcome.returned none ∧
    (disableMultisig (Except.error "Transport closed") true).has2fa = false := by
  refine ⟨?_, rfl, rfl⟩
  decide

/-- Claim C2 (amended): on success `disableMultisig` refreshes the account,
clears `has2fa` and returns the result; on a failure containing "too large
to be viewed" it throws exactly the fixed 15-minute-wait message, leaving
`has2fa` untouched; any other failure is swallowed — the account is still
refreshed, `has2fa` is still cleared, and `undefined` is returned. -/
theorem disableMultisig_error_policy :
    (∀ has2fa : Bool,
      disableMultisig (Except.ok ()) has2fa =
        { outcome := DisableOutcome.returned (some ()),
          has2fa := false, refreshed := true }) ∧
    ∀ (e : String) (has2fa : Bool),
      disableMultisig (Except.error e) has2fa =
        if jsIncludes e TOO_LARGE_PATTERN then
          { outcome := DisableOutcome.threw DISABLE_COOLDOWN_MESSAGE,
            has2fa := has2fa, refreshed := false }
        else
          { outcome := DisableOutcome.returned none,
            has2fa := false, refreshed := true } :=
  ⟨fun _ => rfl, fun _ _ => rfl⟩

/-- Claim C1: with a contract given and a receiver that requires both
registration and a storage deposit (and whose storage-deposit submission
succeeds), `transfer` submits exactly two transactions: first a separate
`storage_deposit` transaction carrying the minimum storage balance
constant, then the transfer transaction to `contractName` whose action
list is exactly `[register_account(receiverId), ft_transfer(amount, memo,
receiverId)]` in that order. -/
theorem transfer_both_required_trace (env : TransferEnv)
    (contract : String) (amount : Nat) (receiverId : String) (memo : Option String)
    (hstor : isStorageDepositRequired env.storageBalanceOfReceiver = true)
    (hreg : isAccountUnregistered env.checkRegistrationOfReceiver = true)
    (hdep : env.firstDepositOutcome = Except.ok ()) :
    (transfer env (some contract) amount receiverId memo).2 =
      [transferStorageDeposit contract receiverId FT_MINIMUM_STORAGE_BALANCE,
       Transaction.functionCallTx contract
         [registerAccountAction receiverId,
          ftTransferAction amount memo receiverId]] := by
  simp [transfer, hstor, hreg, hdep, ftTransferTx]

/-- Concrete environment exercising `transfer_both_required_trace`. -/
def transferBothRequiredEnv : TransferEnv :=
  { storageBalanceOfReceiver := Except.ok none,
    checkRegistrationOfReceiver := Except.ok (JsValue.vBool false),
    firstDepositOutcome := Except.ok (),
    retryDepositOutcome := Except.ok (),
    transferOutcome := Except.ok (),
    sendMoneyOutcome := Except.ok () }

/-- Witness for claim C1 at a concrete environment and inputs. -/
theorem transfer_both_required_trace_witness :
    isStorageDepositRequired transferBothRequiredEnv.storageBalanceOfReceiver = true ∧
    isAccountUnregistered transferBothRequiredEnv.checkRegistrationOfReceiver = true ∧
    transferBothRequiredEnv.firstDepositOutcome = Except.ok () ∧
    (transfer transferBothRequiredEnv (some "token.near") 10 "bob.near" (some "hi")).2 =
      [transferStorageDeposit "token.near" "bob.near" FT_MINIMUM_STORAGE_BALANCE,
       Transaction.functionCallTx "token.near"
         [registerAccountAction "bob.near",
          ftTransferAction 10 (some "hi") "bob.near"]] :=
  ⟨rfl, rfl, rfl,
    transfer_both_required_trace transferBothRequiredEnv "token.near" 10 "bob.near"
      (some "hi") rfl rfl rfl⟩

/-- Environment in which the first storage deposit fails with the matched
message and the retry fails with an unrelated message. -/
def transferRetryFailEnv : TransferEnv :=
  { storageBalanceOfReceiver := Except.ok none,
    checkRegistrationOfReceiver := Except.ok (JsValue.vBool false),
    firstDepositOutcome :=
      Except.error "attached deposit is less than the mimimum storage balance",
    retryDepositOutcome := Except.error "account balance too low",
    transferOutcome := Except.ok (),
    sendMoneyOutcome := Except.ok () }

/-- Claim C3 counterexample: when the first storage deposit fails with the
matched message and the retry with the larger constant then fails with an
unrelated message, that second failure is surfaced to the caller and no
transfer transaction is submitted — so it is not the case that every
non-matching failure of the storage-deposit step is swallowed with the
transfer still submitted. -/
theorem transfer_retry_failure_surfaced_cex :
    (transfer transferRetryFailEnv (some "token.near") 10 "bob.near" none).1
        = Except.error "account balance too low" ∧
    ((transfer transferRetryFailEnv (some "token.near") 10 "bob.near" none).2.any
        txHasFtTransfer) = false := by
  exact ⟨rfl, rfl⟩

/-- Claim C3 (amended): when a storage deposit is required, a first
`storage_deposit` failure whose message contains "attached deposit is less
than" triggers exactly one retry with the larger constant; a first failure
without that substring is swallowed and the transfer transaction is still
assembled and submitted; but a failure of the retry itself propagates to
the caller and the transfer transaction is not submitted. -/
theorem transfer_storage_deposit_policy (env : TransferEnv)
    (contract : String) (amount : Nat) (receiverId : String) (memo : Option String)
    (hstor : isStorageDepositRequired env.storageBalanceOfReceiver = true) :
    transfer env (some contract) amount receiverId memo =
      match env.firstDepositOutcome with
      | Except.ok _ =>
        (env.transferOutcome,
          [transferStorageDeposit contract receiverId FT_MINIMUM_STORAGE_BALANCE,
           ftTransferTx contract (isAccountUnregistered env.checkRegistrationOfReceiver)
             amount memo receiverId])
      | Except.error e =>
        if jsIncludes e ATTACHED_DEPOSIT_PATTERN then
          match env.retryDepositOutcome with
          | Except.ok _ =>
            (env.transferOutcome,
              [transferStorageDeposit contract receiverId FT_MINIMUM_STORAGE_BALANCE,
               transferStorageDeposit contract receiverId FT_MINIMUM_STORAGE_BALANCE_LARGE,
               ftTransferTx contract
                 (isAccountUnregistered env.checkRegistrationOfReceiver)
                 amount memo receiverId])
          | Except.error e2 =>
            (Except.error e2,
              [transferStorageDeposit contract receiverId FT_MINIMUM_STORAGE_BALANCE,
               transferStorageDeposit contract receiverId FT_MINIMUM_STORAGE_BALANCE_LARGE])
        else
          (env.transferOutcome,
            [transferStorageDeposit contract receiverId FT_MINIMUM_STORAGE_BALANCE,
             ftTransferTx contract (isAccountUnregistered env.checkRegistrationOfReceiver)
               amount memo receiverId]) := by
  cases hfd : env.firstDepositOutcome with
  | ok r =>
    simp [transfer, hstor, hfd]
  | error e =>
    cases hr : env.retryDepositOutcome with
    | ok r2 => simp [transfer, hstor, hfd, hr]
    | error e2 => simp [transfer, hstor, hfd, hr]

/-- Witness for the amended claim C3 at a concrete environment in which the
retry fails. -/
theorem transfer_storage_deposit_policy_witness :
    isStorageDepositRequired transferRetryFailEnv.storageBalanceOfReceiver = true ∧
    transfer transferRetryFailEnv (some "token.near") 10 "bob.near" none =
      (Except.error "account balance too low",
        [transferStorageDeposit "token.near" "bob.near" FT_MINIMUM_STORAGE_BALANCE,
         transferStorageDeposit "token.near" "bob.near" FT_MINIMUM_STORAGE_BALANCE_LARGE]) :=
  ⟨rfl,
    transfer_storage_deposit_policy transferRetryFailEnv "token.near" 10 "bob.near" none rfl⟩

/-- Claim C6: for identical gas-price inputs (one monotone gas-fee oracle)
and constants satisfying the orderings the spec's fee taxonomy presumes,
`getEstimatedTotalFees` with registration required is strictly greater
than with only a storage deposit required, which is strictly greater than
with neither required. -/
theorem getEstimatedTotalFees_strictly_ordered
    (cfg : FeeConfig) (gasFee : Nat → Nat) (hmono : Monotone gasFee)
    (hminPos : 0 < cfg.ftMinimumStorageBalance)
    (hdepOrd : cfg.ftMinimumStorageBalance < cfg.ftRegistrationDeposit)
    (hgasOrd : cfg.ftStorageDepositGas ≤ cfg.ftRegistrationDepositGas)
    (accountId contractName : String)
    (regYes regNo : Except String JsValue)
    (storYes storNo : Except String (Option StorageBalance))
    (hRegYes : isAccountUnregistered regYes = true)
    (hRegNo : isAccountUnregistered regNo = false)
    (hStorYes : isStorageDepositRequired storYes = true)
    (hStorNo : isStorageDepositRequired storNo = false) :
    getEstimatedTotalFees cfg gasFee regNo storNo (some accountId) (some contractName)
      < getEstimatedTotalFees cfg gasFee regNo storYes (some accountId) (some contractName)
    ∧ getEstimatedTotalFees cfg gasFee regNo storYes (some accountId) (some contractName)
      < getEstimatedTotalFees cfg gasFee regYes storYes (some accountId) (some contractName) := by
  simp only [getEstimatedTotalFees, hRegYes, hRegNo, hStorYes, hStorNo,
    Option.isSome_some, Bool.and_self, if_true, if_false, Bool.false_eq_true,
    Bool.true_and]
  constructor
  · have h1 : gasFee cfg.ftTransferGas
        ≤ gasFee (cfg.ftTransferGas + cfg.ftStorageDepositGas) :=
      hmono (Nat.le_add_right _ _)
    omega
  · have h2 : gasFee (cfg.ftTransferGas + cfg.ftStorageDepositGas)
        ≤ gasFee (cfg.ftTransferGas + cfg.ftRegistrationDepositGas) :=
      hmono (Nat.add_le_add_left hgasOrd _)
    omega

/-- Concrete fee configuration exercising the fee-ordering claim. -/
def feeCfgWitness : FeeConfig :=
  { ftTransferGas := 10, ftRegistrationDepositGas := 7, ftStorageDepositGas := 5,
    ftRegistrationDeposit := 300, ftMinimumStorageBalance := 200, sendNearGas := 4 }

/-- Witness for claim C6 at a concrete configuration, identity gas oracle
and concrete query outcomes. -/
theorem getEstimatedTotalFees_strictly_ordered_witness :
    (0 < feeCfgWitness.ftMinimumStorageBalance ∧
     feeCfgWitness.ftMinimumStorageBalance < feeCfgWitness.ftRegistrationDeposit ∧
     feeCfgWitness.ftStorageDepositGas ≤ feeCfgWitness.ftRegistrationDepositGas) ∧
    getEstimatedTotalFees feeCfgWitness id (Except.ok JsValue.vNull)
        (Except.error "offline") (some "alice") (some "token")
      < getEstimatedTotalFees feeCfgWitness id (Except.ok JsValue.vNull)
        (Except.ok none) (some "alice") (some "token")
    ∧ getEstimatedTotalFees feeCfgWitness id (Except.ok JsValue.vNull)
        (Except.ok none) (some "alice") (some "token")
      < getEstimatedTotalFees feeCfgWitness id (Except.ok (JsValue.vBool false))
        (Except.ok none) (some "alice") (some "token") :=
  ⟨⟨by decide, by decide, by decide⟩,
    (getEstimatedTotalFees_strictly_ordered feeCfgWitness id monotone_id
      (by decide) (by decide) (by decide) "alice" "token"
      (Except.ok (JsValue.vBool false)) (Except.ok JsValue.vNull)
      (Except.ok none) (Except.error "offline") rfl rfl rfl rfl).1,
    (getEstimatedTotalFees_strictly_ordered feeCfgWitness id monotone_id
      (by decide) (by decide) (by decide) "alice" "token"
      (Except.ok (JsValue.vBool false)) (Except.ok JsValue.vNull)
      (Except.ok none) (Except.error "offline") rfl rfl rfl rfl).2⟩

end NearWallet
